import Mathlib

/-!
Verification of the tool-calling orchestration core of the farm-os
mcp-server (src/mcp-server/chat.py): the tool registry and schema
synthesis, the tool executor, the result truncator, and the
conversation-driver loop.

The embedding models JSON values as an inductive type, Python's
`json.dumps` (default settings, `ensure_ascii=True`) as a serialization
function, and the chat loop as a function driven by a finite script of
model responses (the language model is an external collaborator; the
script plays its role exactly as the mocked client does in the
repository's tests).  The ~50 REST wrapper tools (main.py) are external
collaborators of the loop; their behaviour is abstracted by a
`ToolImpl` environment, matching the dynamic `getattr`-based lookup in
`chat.py` (`_get_tool_function`).
-/

/-- JSON values, as handled by `json.dumps` in chat.py.  Numbers are
restricted to integers (no tool result relevant to the claims uses
floats).  Objects are ordered key/value lists, mirroring Python's
insertion-ordered `dict`. -/
inductive Json where
  | null : Json
  | bool (b : Bool) : Json
  | num (n : Int) : Json
  | str (s : String) : Json
  | arr (xs : List Json) : Json
  | obj (fs : List (String × Json)) : Json
deriving Repr

/-- Hex digit (lowercase), as produced by Python's `\uXXXX` escapes. -/
def hexDigit (n : Nat) : Char :=
  if n < 10 then Char.ofNat (48 + n) else Char.ofNat (87 + n)

/-- Four-digit lowercase hex rendering of a code unit. -/
def hex4 (n : Nat) : String :=
  String.mk [hexDigit (n / 4096 % 16), hexDigit (n / 256 % 16),
             hexDigit (n / 16 % 16), hexDigit (n % 16)]

/-- Escape of one character inside a JSON string literal, following
Python's `json.dumps` with its default `ensure_ascii=True`: `"`, `\`
and the named control characters get two-character escapes, every
other character outside the printable ASCII range `0x20..0x7e` becomes
`\uXXXX` (a surrogate pair beyond the BMP). -/
def escapeChar (c : Char) : String :=
  if c = '"' then "\\\""
  else if c = '\\' then "\\\\"
  else if c = '\n' then "\\n"
  else if c = '\r' then "\\r"
  else if c = '\t' then "\\t"
  else if c = '\x08' then "\\b"
  else if c = '\x0c' then "\\f"
  else if c.toNat < 0x20 || 0x7e < c.toNat then
    if c.toNat < 0x10000 then "\\u" ++ hex4 c.toNat
    else
      let v := c.toNat - 0x10000
      "\\u" ++ hex4 (0xd800 + v / 0x400) ++ "\\u" ++ hex4 (0xdc00 + v % 0x400)
  else String.mk [c]

/-- JSON string literal encoding (quotes plus escaped content). -/
def encodeString (s : String) : String :=
  "\"" ++ String.join (s.data.map escapeChar) ++ "\""

mutual
/-- Python `json.dumps` with default settings: item separator `", "`,
key separator `": "`. -/
def dumps : Json → String
  | .null => "null"
  | .bool true => "true"
  | .bool false => "false"
  | .num n => toString n
  | .str s => encodeString s
  | .arr xs => "[" ++ dumpsList xs ++ "]"
  | .obj fs => "\x7b" ++ dumpsObj fs ++ "\x7d"

/-- Comma-separated rendering of the elements of a JSON array. -/
def dumpsList : List Json → String
  | [] => ""
  | [x] => dumps x
  | x :: xs => dumps x ++ ", " ++ dumpsList xs

/-- Comma-separated rendering of the fields of a JSON object. -/
def dumpsObj : List (String × Json) → String
  | [] => ""
  | [(k, v)] => encodeString k ++ ": " ++ dumps v
  | (k, v) :: fs => encodeString k ++ ": " ++ dumps v ++ ", " ++ dumpsObj fs
end

/-- Python dict assignment `d[k] = v` on an insertion-ordered object:
an existing key keeps its position and gets the new value, a fresh key
is appended at the end. -/
def objInsert (d : List (String × Json)) (k : String) (v : Json) :
    List (String × Json) :=
  if d.any (fun p => p.1 == k) then
    d.map (fun p => if p.1 == k then (k, v) else p)
  else d ++ [(k, v)]

/-- Python slice `s[:n]` on a string, by code points, including the
negative-index convention (`s[:-k]` drops the last `k` characters) and
clamping. -/
def pySliceTo (s : String) (n : Int) : String :=
  if 0 ≤ n then String.mk (s.data.take n.toNat)
  else String.mk (s.data.take (s.data.length - (-n).toNat))

/-- chat.py line 10: maximum character length for tool results. -/
def MAX_TOOL_RESULT_LENGTH : Nat := 8000

/-- chat.py line 11: history cap. -/
def MAX_HISTORY_MESSAGES : Nat := 20

/-- chat.py `TOOL_NAMES` (lines 93-163): the registry's allow-list.
The commented-out drawing tools are absent, exactly as in the source. -/
def TOOL_NAMES : List String := [
  "get_api_info",
  "get_schema",
  "list_assets",
  "get_asset",
  "create_asset",
  "update_asset",
  "delete_asset",
  "list_logs",
  "get_log",
  "create_log",
  "create_harvest_log",
  "update_log",
  "list_locations",
  "get_location",
  "create_location",
  "update_location",
  "list_predicates",
  "get_predicate",
  "list_facts",
  "get_fact",
  "create_fact",
  "list_quantities",
  "create_quantity",
  "move_asset",
  "record_observation",
  "get_farm_summary",
  "list_tasks",
  "get_task",
  "create_task",
  "update_task",
  "delete_task",
  "complete_task",
  "get_my_tasks",
  "get_overdue_tasks",
  "get_blocked_tasks",
  "move_task_to_plan",
  "schedule_task_to_cycle",
  "list_plans",
  "get_plan",
  "get_plan_children",
  "create_plan",
  "update_plan",
  "delete_plan",
  "list_cycles",
  "get_cycle",
  "get_current_cycle",
  "create_cycle",
  "generate_cycles",
  "update_cycle",
  "delete_cycle",
  "add_task_blocker",
  "remove_task_blocker",
  "get_task_blockers",
  "get_tasks_blocked_by",
  "add_related_task",
  "mark_task_duplicate"]

/-- The environment of registered callables: what
`_get_tool_function(name)(**arguments)` does for each tool name.  The
callables themselves live in main.py and perform HTTP calls; a Python
call either returns a JSON-serializable value or raises, which
`Except` captures (`error` carries `str(e)`). -/
def ToolImpl : Type := String → Json → Except String Json

/-- chat.py `execute_tool` (lines 445-462): raise
`ValueError(f"Unknown tool: {name}")` when the name is not in the
allow-list, otherwise look the callable up and call it with the
arguments expanded as keyword parameters. -/
def execute_tool (impl : ToolImpl) (name : String) (arguments : Json) :
    Except String Json :=
  if name ∈ TOOL_NAMES then impl name arguments
  else Except.error ("Unknown tool: " ++ name)

/-- chat.py `_truncate_result` (lines 465-493). -/
def _truncate_result (result : Json) (max_length : Nat) : String :=
  let result_str := dumps result
  if result_str.length ≤ max_length then result_str
  else
    let fallback := pySliceTo result_str ((max_length : Int) - 100) ++
      "... [TRUNCATED - result too large]\"\x7d"
    match result with
    | Json.obj fields =>
      match fields.lookup "data" with
      | some (Json.arr data) =>
        if data.length > 5 then
          dumps (Json.obj (objInsert
            (objInsert fields "data" (Json.arr (data.take 5)))
            "_truncated"
            (Json.str ("Showing 5 of " ++ toString data.length ++
              " items. Use more specific filters to see more."))))
        else fallback
      | _ => fallback
    | _ => fallback

/-- Sanity check of the serialization against
`json.dumps({"data": [0, 1]})`. -/
lemma dumps_sample : dumps (Json.obj [("data", Json.arr [Json.num 0, Json.num 1])]) =
    "\x7b\"data\": [0, 1]\x7d" := by decide

/-- Sanity check: a small result is returned as its serialization. -/
lemma truncate_sample : _truncate_result (Json.obj [("a", Json.num 1)]) 8000 =
    "\x7b\"a\": 1\x7d" := by decide

/-- Python type annotations as far as `_get_type_for_annotation`
distinguishes them: the six types it compares against, plus `pyOther`
for any other annotation (e.g. `Optional[str]`). -/
inductive PyAnnot where
  | pyInt | pyFloat | pyBool | pyStr | pyList | pyDict | pyOther
deriving DecidableEq, Repr

/-- chat.py `_get_type_for_annotation` (lines 349-364). -/
def _get_type_for_annotation : PyAnnot → String
  | .pyInt => "integer"
  | .pyFloat => "number"
  | .pyBool => "boolean"
  | .pyStr => "string"
  | .pyList => "array"
  | .pyDict => "object"
  | .pyOther => "string"

/-- One declared parameter of a registered callable, as
`inspect.signature` reports it: its name, its annotation (`none`
models `inspect.Parameter.empty`), and whether it has a default
value (`param.default != inspect.Parameter.empty`). -/
structure PyParam where
  name : String
  annotation : Option PyAnnot
  hasDefault : Bool
deriving DecidableEq, Repr

/-- What introspection sees of a registered callable: its ordered
parameter list (`inspect.signature`, unique names) and its docstring
(`func.__doc__`, `none` when absent). -/
structure PyFunc where
  params : List PyParam
  doc : Option String
deriving DecidableEq, Repr

/-- Python `line.split("\n")`, accumulator form (structural, so that
proofs can evaluate it). -/
def splitNlAux : List Char → List Char → List String
  | [], acc => [String.mk acc.reverse]
  | c :: cs, acc =>
    if c = '\n' then String.mk acc.reverse :: splitNlAux cs []
    else splitNlAux cs (c :: acc)

/-- Python `doc.split("\n")`. -/
def pySplitNl (s : String) : List String :=
  splitNlAux s.data []

/-- Python `line.startswith(pre)`. -/
def pyStartsWith (s pre : String) : Bool :=
  pre.data.isPrefixOf s.data

/-- Python `str.strip()`: remove leading and trailing whitespace. -/
def isPySpace (c : Char) : Bool :=
  c == ' ' || c == '\t' || c == '\n' || c == '\r' || c == '\x0b' || c == '\x0c'

/-- Python `str.strip()` on both ends of a string. -/
def pyStrip (s : String) : String :=
  String.mk (((s.data.dropWhile isPySpace).reverse.dropWhile isPySpace).reverse)

/-- Python `line.split(":", 1)` when a colon is present: the text
before the first colon and everything after it. -/
def pySplitColon (s : String) : String × String :=
  let pre := s.data.takeWhile (fun c => c != ':')
  (String.mk pre, String.mk (s.data.drop (pre.length + 1)))

/-- Python dict assignment `d[k] = v` for a string-valued dict. -/
def dictInsert (d : List (String × String)) (k v : String) :
    List (String × String) :=
  if d.any (fun p => p.1 == k) then
    d.map (fun p => if p.1 == k then (k, v) else p)
  else d ++ [(k, v)]

/-- One iteration of the docstring scan in `_function_to_openai_tool`
(chat.py lines 376-387): the state is `(in_args, param_descriptions)`. -/
def pdStep (st : Bool × List (String × String)) (rawLine : String) :
    Bool × List (String × String) :=
  let line := pyStrip rawLine
  if pyStartsWith line "Args:" then (true, st.2)
  else if st.1 && line != "" && line.data.contains ':' then
    let pair := pySplitColon line
    (st.1, dictInsert st.2 (pyStrip pair.1) (pyStrip pair.2))
  else if st.1 && line == "" then st
  else if st.1 && !(line.data.contains ':') then (false, st.2)
  else st

/-- The docstring parse of `_function_to_openai_tool` (chat.py lines
372-387): scan the lines, entering the section at a line starting
with `Args:`, and collect `name: description` entries. -/
def parseParamDescriptions (doc : String) : List (String × String) :=
  ((pySplitNl doc).foldl pdStep (false, [])).2

/-- One property of the synthesized JSON-Schema `parameters` object:
chat.py lines 398-405. -/
structure PropSchema where
  type : String
  description : String
  items : Option Json
deriving Repr

/-- Python dict assignment on the `properties` object. -/
def propInsert (d : List (String × PropSchema)) (k : String) (v : PropSchema) :
    List (String × PropSchema) :=
  if d.any (fun p => p.1 == k) then
    d.map (fun p => if p.1 == k then (k, v) else p)
  else d ++ [(k, v)]

/-- The property schema built for one parameter (chat.py lines
393-407): the type from the annotation (default `"string"`), the
description looked up in the parsed docstring (default `""`), and an
`items` descriptor exactly when the type is `"array"`. -/
def paramSchema (descs : List (String × String)) (p : PyParam) : PropSchema :=
  let param_type := match p.annotation with
    | none => "string"
    | some a => _get_type_for_annotation a
  { type := param_type
    description := ((descs.lookup p.name).getD "")
    items := if param_type == "array" then
        some (Json.obj [("type", Json.str "object")])
      else none }

/-- The tool-level description (chat.py lines 413-420): the first
non-blank stripped line of the docstring, or `Execute <name>` when
there is none (also when the docstring is empty or absent). -/
def toolDescription (name doc : String) : String :=
  match ((pySplitNl doc).map pyStrip).filter (fun s => s != "") with
  | [] => "Execute " ++ name
  | d :: _ => d

/-- The synthesized tool schema: the `function` object of chat.py
lines 422-433 (the outer wrapper adds only the constant
`"type": "function"`). -/
structure ToolDef where
  name : String
  description : String
  properties : List (String × PropSchema)
  required : List String
deriving Repr

/-- One iteration of the parameter loop of `_function_to_openai_tool`
(chat.py lines 393-411): store the parameter's property schema under
its name and append the name to `required` exactly when it has no
default value. -/
def propStep (descs : List (String × String))
    (pr : List (String × PropSchema) × List String) (p : PyParam) :
    List (String × PropSchema) × List String :=
  (propInsert pr.1 p.name (paramSchema descs p),
   if p.hasDefault then pr.2 else pr.2 ++ [p.name])

/-- chat.py `_function_to_openai_tool` (lines 367-433). -/
def _function_to_openai_tool (name : String) (func : PyFunc) : ToolDef :=
  let doc := func.doc.getD ""
  let param_descriptions := parseParamDescriptions doc
  let pr := func.params.foldl (propStep param_descriptions) ([], [])
  { name := name
    description := toolDescription name doc
    properties := pr.1
    required := pr.2 }

/-- chat.py `get_tool_definitions` (lines 436-442): one schema per
name of the allow-list, each built from the callable the registry
resolves for that name (`env` plays `_get_tool_function`'s role of
reporting each callable's signature and docstring). -/
def get_tool_definitions (env : String → PyFunc) : List ToolDef :=
  TOOL_NAMES.map (fun n => _function_to_openai_tool n (env n))

/-- Sanity check of the docstring scan on a two-parameter `Args:`
section. -/
lemma parse_sample :
    parseParamDescriptions "List assets.\n\n    Args:\n        asset_type: Type of assets\n        status: Filter by status\n    " =
      [("asset_type", "Type of assets"), ("status", "Filter by status")] := by decide

/-- One tool-call request inside a model response: chat.py reads
`tc.id`, `tc.function.name` and `tc.function.arguments` (a serialized
JSON object).  `arguments` holds the parsed form; the serialized form
the assistant turn stores is `dumps arguments`, and
`json.loads(tc.function.arguments)` recovers `arguments`. -/
structure ToolCallReq where
  id : String
  name : String
  arguments : Json
deriving Repr

/-- One language-model completion as the loop reads it (chat.py lines
543-544): the assistant message's optional text content, its requested
tool calls (`[]` models both `None` and an empty list — both falsy in
`if not assistant_message.tool_calls`), and the finish indicator. -/
structure ModelResponse where
  content : Option String
  tool_calls : List ToolCallReq
  finish_reason : String
deriving Repr

/-- One entry of `tool_calls_made` (chat.py lines 585-597): a success
entry carries `result` and no `error`, a failure entry carries `error`
and no `result`. -/
structure ToolCallRecord where
  name : String
  arguments : Json
  result : Option Json
  error : Option String
deriving Repr

/-- A message of the running transcript (chat.py `messages`): the
system prompt, a prior-history entry passed through verbatim, the new
user message, an assistant turn echoing the requested tool calls, or a
tool turn correlating a (truncated) serialized result to its request
id. -/
inductive Msg where
  | system (content : String)
  | user (content : String)
  | hist (m : Json)
  | assistant (content : Option String) (tool_calls : List ToolCallReq)
  | tool (tool_call_id : String) (content : String)
deriving Repr

/-- The outcome of `chat` (chat.py lines 553-556) together with two
observables of the run the claims speak about: the final transcript
(the `messages` list at return time) and how many model requests were
issued. -/
structure ChatResult where
  message : String
  tool_calls : List ToolCallRecord
  transcript : List Msg
  requests : Nat
deriving Repr

/-- The body of the per-call loop (chat.py lines 576-604): execute the
tool, append the success or failure record, and append the tool-turn
message with the truncated serialized result (on failure the result is
the `{"error": str(e)}` object). -/
def runToolCall (impl : ToolImpl) (acc : List Msg × List ToolCallRecord)
    (tc : ToolCallReq) : List Msg × List ToolCallRecord :=
  match execute_tool impl tc.name tc.arguments with
  | .ok result =>
    (acc.1 ++ [Msg.tool tc.id (_truncate_result result MAX_TOOL_RESULT_LENGTH)],
     acc.2 ++ [⟨tc.name, tc.arguments, some result, none⟩])
  | .error e =>
    let result := Json.obj [("error", Json.str e)]
    (acc.1 ++ [Msg.tool tc.id (_truncate_result result MAX_TOOL_RESULT_LENGTH)],
     acc.2 ++ [⟨tc.name, tc.arguments, none, some e⟩])

/-- The `while True` loop of `chat` (chat.py lines 534-604), driven by
the script of model responses (one consumed per round; the real client
is external and always yields one, the script running out is modelled
as `none`).  A response with no tool calls or with finish indicator
`"stop"` terminates the loop; otherwise the assistant turn and the
tool turns are appended and the loop repeats.  `n` counts the model
requests already made. -/
def chatLoop (impl : ToolImpl) :
    List ModelResponse → List Msg → List ToolCallRecord → Nat → Option ChatResult
  | [], _, _, _ => none
  | r :: rest, messages, records, n =>
    if r.tool_calls.isEmpty || r.finish_reason == "stop" then
      some ⟨r.content.getD "", records, messages, n + 1⟩
    else
      let messages := messages ++ [Msg.assistant r.content r.tool_calls]
      let acc := r.tool_calls.foldl (runToolCall impl) (messages, records)
      chatLoop impl rest acc.1 acc.2 (n + 1)

/-- chat.py `SYSTEM_PROMPT` (lines 321-346). -/
def SYSTEM_PROMPT : String :=
  "You are a helpful farm management assistant for farmOS. You help farmers manage their assets, locations, logs, observations, and tasks.\n\nYou have access to tools that allow you to:\n- View and manage farm assets (animals, plants, equipment, etc.)\n- View and manage farm locations\n- Create and view activity logs\n- Record observations and facts about assets\n- Move assets between locations\n- Get a summary of the farm\n\nTask Management:\n- Create, update, and complete tasks (every task belongs to a plan)\n- Organize tasks into plans - plans are recursive (plans can contain other plans)\n- Schedule tasks into cycles (time periods like sprints or weeks)\n- Track task dependencies (blockers) and related tasks\n- View overdue tasks, blocked tasks, and active work\n- Link tasks to specific assets or locations\n\nWhen answering questions:\n- Be concise and helpful\n- Use tools to get current data when needed\n- Explain what you found in natural language\n- If you need to perform multiple operations, do them in sequence\n- For task management, proactively suggest organizing tasks into plans or scheduling them into cycles\n\nAlways prioritize getting accurate, real-time data from the farm database over making assumptions."

/-- The optional resource context of `chat` (chat.py lines 496-512):
`context["type"]` and `context["data"]` are the fields the code reads. -/
structure ChatContext where
  type : String
  data : String
deriving Repr

/-- The context block appended to the system prompt (chat.py line 511). -/
def contextIntro (c : ChatContext) : String :=
  "\n\n---\n\n## Current Context\n\nThe user is asking about a specific " ++
  c.type ++ ". Here is the relevant information:\n\n" ++ c.data ++
  "\n\nUse this context to provide more relevant and specific answers. You can still use tools to get additional information if needed."

/-- The system message content (chat.py lines 509-512). -/
def systemContent (context : Option ChatContext) : String :=
  match context with
  | some c => SYSTEM_PROMPT ++ contextIntro c
  | none => SYSTEM_PROMPT

/-- Assembly of the initial message list (chat.py lines 514-522):
system message, then — when a history is supplied — the most recent
`MAX_HISTORY_MESSAGES` prior messages (`history[-MAX_HISTORY_MESSAGES:]`
when the history is longer than the cap, the whole history otherwise),
then the new user message. -/
def buildMessages (message : String) (history : List Json)
    (context : Option ChatContext) : List Msg :=
  let messages := [Msg.system (systemContent context)]
  let messages := if history.isEmpty then messages
    else messages ++
      (if history.length > MAX_HISTORY_MESSAGES then
        history.drop (history.length - MAX_HISTORY_MESSAGES)
      else history).map Msg.hist
  messages ++ [Msg.user message]

/-- chat.py `chat` (lines 496-604): build the message list, then run
the tool-call loop against the model (played by `script`) starting
with no records and no requests made. -/
def chat (impl : ToolImpl) (script : List ModelResponse) (message : String)
    (history : List Json) (context : Option ChatContext) : Option ChatResult :=
  chatLoop impl script (buildMessages message history context) [] 0

/-! ## Helper lemmas -/

set_option maxRecDepth 100000

/-- A round whose response has no tool calls or signals `"stop"`
terminates the loop with the accumulated state. -/
lemma chatLoop_terminal (impl : ToolImpl) (r : ModelResponse)
    (rest : List ModelResponse) (msgs : List Msg) (recs : List ToolCallRecord)
    (n : Nat) (h : r.tool_calls = [] ∨ r.finish_reason = "stop") :
    chatLoop impl (r :: rest) msgs recs n =
      some ⟨r.content.getD "", recs, msgs, n + 1⟩ := by
  rcases h with h | h <;> simp [chatLoop, h]

/-- A result whose serialization fits the budget is returned unchanged. -/
lemma truncate_of_fits (result : Json) (max_length : Nat)
    (h : (dumps result).length ≤ max_length) :
    _truncate_result result max_length = dumps result := by
  simp [_truncate_result, h]

/-- The `ToolCallRecord` one requested call produces (chat.py lines
582-597), as a function of the executor's outcome. -/
def recordOf (impl : ToolImpl) (tc : ToolCallReq) : ToolCallRecord :=
  match execute_tool impl tc.name tc.arguments with
  | .ok result => ⟨tc.name, tc.arguments, some result, none⟩
  | .error e => ⟨tc.name, tc.arguments, none, some e⟩

/-- The tool-turn message one requested call appends (chat.py lines
599-604). -/
def toolTurnOf (impl : ToolImpl) (tc : ToolCallReq) : Msg :=
  match execute_tool impl tc.name tc.arguments with
  | .ok result => Msg.tool tc.id (_truncate_result result MAX_TOOL_RESULT_LENGTH)
  | .error e => Msg.tool tc.id
      (_truncate_result (Json.obj [("error", Json.str e)]) MAX_TOOL_RESULT_LENGTH)

/-- The per-round fold over the requested calls appends one tool-turn
message and one record per call, in request order. -/
lemma foldl_runToolCall (impl : ToolImpl) :
    ∀ (calls : List ToolCallReq) (ms : List Msg) (rs : List ToolCallRecord),
    calls.foldl (runToolCall impl) (ms, rs) =
      (ms ++ calls.map (toolTurnOf impl), rs ++ calls.map (recordOf impl)) := by
  intro calls
  induction calls with
  | nil => intro ms rs; simp
  | cons c cs ih =>
    intro ms rs
    have hstep : runToolCall impl (ms, rs) c =
        (ms ++ [toolTurnOf impl c], rs ++ [recordOf impl c]) := by
      cases h : execute_tool impl c.name c.arguments <;>
        simp [runToolCall, toolTurnOf, recordOf, h]
    simp [List.foldl_cons, hstep, ih]

/-- A round with pending tool calls and no `"stop"` indicator appends
the assistant turn and one tool turn per call, records every call, and
continues with the rest of the script. -/
lemma chatLoop_round (impl : ToolImpl) (r : ModelResponse)
    (rest : List ModelResponse) (msgs : List Msg) (recs : List ToolCallRecord)
    (n : Nat) (hne : r.tool_calls ≠ []) (hstop : r.finish_reason ≠ "stop") :
    chatLoop impl (r :: rest) msgs recs n =
      chatLoop impl rest
        (msgs ++ [Msg.assistant r.content r.tool_calls] ++
          r.tool_calls.map (toolTurnOf impl))
        (recs ++ r.tool_calls.map (recordOf impl)) (n + 1) := by
  have h1 : r.tool_calls.isEmpty = false := by
    simpa [List.isEmpty_iff] using hne
  have h2 : (r.finish_reason == "stop") = false := by
    simpa [beq_iff_eq] using hstop
  simp [chatLoop, h1, h2, foldl_runToolCall]

/-! ## C2: termination on a final response -/

/-- C2: a response with no tool-call requests (or one explicitly
signalling completion) terminates the loop, returning the assistant's
text (the empty string when there is no content) and the accumulated
records; in particular a first response that is final text makes
`chat` return that text with an empty record list after exactly one
model request. -/
theorem C2_final_response_terminates :
    (∀ (impl : ToolImpl) (r : ModelResponse) (rest : List ModelResponse)
      (msgs : List Msg) (recs : List ToolCallRecord) (n : Nat),
      r.tool_calls = [] ∨ r.finish_reason = "stop" →
      chatLoop impl (r :: rest) msgs recs n =
        some ⟨r.content.getD "", recs, msgs, n + 1⟩) ∧
    (∀ (impl : ToolImpl) (r : ModelResponse) (rest : List ModelResponse)
      (message : String) (history : List Json) (context : Option ChatContext),
      r.tool_calls = [] →
      chat impl (r :: rest) message history context =
        some ⟨r.content.getD "", [], buildMessages message history context, 1⟩) := by
  constructor
  · exact fun impl r rest msgs recs n h => chatLoop_terminal impl r rest msgs recs n h
  · intro impl r rest message history context h
    exact chatLoop_terminal impl r rest _ [] 0 (Or.inl h)

/-- A sample callable environment for the witnesses: `list_assets`
raises (its record must carry the error), every other tool returns the
empty object. -/
def implW : ToolImpl := fun name _ =>
  if name == "list_assets" then Except.error "boom" else Except.ok (Json.obj [])

/-- A final-text model response with no tool calls. -/
def finalResp : ModelResponse :=
  ⟨some "Hello! How can I help with your farm today?", [], "stop"⟩

/-- Witness for C2 at a concrete one-response script. -/
theorem C2_final_response_terminates_witness :
    chatLoop implW [finalResp] [] [] 0 =
      some ⟨"Hello! How can I help with your farm today?", [], [], 1⟩ ∧
    chat implW [finalResp] "Hello" [] none =
      some ⟨"Hello! How can I help with your farm today?", [],
        buildMessages "Hello" [] none, 1⟩ :=
  ⟨C2_final_response_terminates.1 implW finalResp [] [] [] 0 (Or.inl rfl),
   C2_final_response_terminates.2 implW finalResp [] "Hello" [] none rfl⟩

/-! ## C10: a "stop" response with pending tool calls -/

/-- C10: when a response carries tool-call requests but reports finish
indicator `"stop"`, the loop returns immediately: the transcript and
record list are exactly those accumulated in earlier rounds (no
assistant or tool turn is appended), and — the equation holding for
every `impl` — none of the requested tools is executed. -/
theorem C10_stop_overrides_pending_calls (impl : ToolImpl) (r : ModelResponse)
    (rest : List ModelResponse) (msgs : List Msg) (recs : List ToolCallRecord)
    (n : Nat) (hcalls : r.tool_calls ≠ []) (hstop : r.finish_reason = "stop") :
    chatLoop impl (r :: rest) msgs recs n =
      some ⟨r.content.getD "", recs, msgs, n + 1⟩ :=
  chatLoop_terminal impl r rest msgs recs n (Or.inr hstop)

/-- A `"stop"` response that nonetheless lists a tool call. -/
def stopWithCallResp : ModelResponse :=
  ⟨some "All done.", [⟨"call_9", "list_assets", Json.obj []⟩], "stop"⟩

/-- An earlier-round record, to observe that it alone is returned. -/
def earlierRec : ToolCallRecord :=
  ⟨"get_api_info", Json.obj [], some Json.null, none⟩

/-- Witness for C10: the pending call is not executed, the transcript
is untouched and only the earlier-round record comes back. -/
theorem C10_stop_overrides_pending_calls_witness :
    chatLoop implW [stopWithCallResp, finalResp] [Msg.user "hi"] [earlierRec] 3 =
      some ⟨"All done.", [earlierRec], [Msg.user "hi"], 4⟩ :=
  C10_stop_overrides_pending_calls implW stopWithCallResp [finalResp]
    [Msg.user "hi"] [earlierRec] 3 (List.cons_ne_nil _ _) rfl

/-! ## C6: unknown tool names -/

/-- C6: a name outside the allow-list makes `execute_tool` fail with
the `Unknown tool` error; the equation holds for every callable
environment, so no callable is consulted (the membership check comes
first). -/
theorem C6_unknown_tool_rejected (impl : ToolImpl) (name : String) (args : Json)
    (h : name ∉ TOOL_NAMES) :
    execute_tool impl name args = Except.error ("Unknown tool: " ++ name) := by
  simp [execute_tool, h]

/-- Witness for C6 at the spec's own example name. -/
theorem C6_unknown_tool_rejected_witness :
    "nonexistent_tool" ∉ TOOL_NAMES ∧
    execute_tool implW "nonexistent_tool" (Json.obj []) =
      Except.error ("Unknown tool: " ++ "nonexistent_tool") :=
  ⟨by decide, C6_unknown_tool_rejected implW "nonexistent_tool" (Json.obj [])
    (by decide)⟩

/-! ## C7: delegation to registered callables -/

/-- C7: a name on the allow-list makes `execute_tool` invoke the
registered callable on the arguments mapping (expanded as keyword
parameters by the Python call) and return its result unchanged; the
spec's two example names are on the allow-list. -/
theorem C7_known_tool_delegates :
    (∀ (impl : ToolImpl) (name : String) (args : Json), name ∈ TOOL_NAMES →
      execute_tool impl name args = impl name args) ∧
    "get_farm_summary" ∈ TOOL_NAMES ∧ "list_assets" ∈ TOOL_NAMES := by
  refine ⟨fun impl name args h => by simp [execute_tool, h], by decide, by decide⟩

/-- Witness for C7: delegation at the two example calls. -/
theorem C7_known_tool_delegates_witness :
    execute_tool implW "get_farm_summary" (Json.obj []) =
      implW "get_farm_summary" (Json.obj []) ∧
    execute_tool implW "list_assets" (Json.obj [("asset_type", Json.str "animal")]) =
      implW "list_assets" (Json.obj [("asset_type", Json.str "animal")]) :=
  ⟨C7_known_tool_delegates.1 implW "get_farm_summary" (Json.obj []) (by decide),
   C7_known_tool_delegates.1 implW "list_assets"
     (Json.obj [("asset_type", Json.str "animal")]) (by decide)⟩

/-! ## C9: history capping -/

/-- C9: with more than `MAX_HISTORY_MESSAGES` (20) prior messages only
the most recent 20 are included — between the system message and the
new user message — and their number is exactly 20; a history of at
most 20 messages is included in full; and the message list `chat`
submits to the model is exactly the assembled one (shown on a
one-round run: the returned transcript is that list). -/
theorem C9_history_capped :
    (∀ (message : String) (history : List Json) (context : Option ChatContext),
      MAX_HISTORY_MESSAGES < history.length →
      buildMessages message history context =
        [Msg.system (systemContent context)] ++
          (history.drop (history.length - MAX_HISTORY_MESSAGES)).map Msg.hist ++
          [Msg.user message] ∧
      (history.drop (history.length - MAX_HISTORY_MESSAGES)).length =
        MAX_HISTORY_MESSAGES) ∧
    (∀ (message : String) (history : List Json) (context : Option ChatContext),
      history.length ≤ MAX_HISTORY_MESSAGES →
      buildMessages message history context =
        [Msg.system (systemContent context)] ++ history.map Msg.hist ++
          [Msg.user message]) ∧
    (∀ (impl : ToolImpl) (r : ModelResponse) (message : String)
      (history : List Json) (context : Option ChatContext),
      r.tool_calls = [] →
      chat impl [r] message history context =
        some ⟨r.content.getD "", [], buildMessages message history context, 1⟩) := by
  refine ⟨?_, ?_, ?_⟩
  · intro message history context h
    have hne : history.isEmpty = false := by
      rcases history with _ | _
      · simp [MAX_HISTORY_MESSAGES] at h
      · rfl
    constructor
    · simp [buildMessages, hne, if_pos h]
    · rw [List.length_drop]
      omega
  · intro message history context h
    rcases history with _ | ⟨m, ms⟩
    · simp [buildMessages]
    · have hlt : ¬ (MAX_HISTORY_MESSAGES < ms.length + 1) := by
        simp at h
        omega
      simp [buildMessages, hlt]
  · intro impl r message history context h
    exact chatLoop_terminal impl r [] _ [] 0 (Or.inl h)

/-- A concrete 25-message history. -/
def hist25 : List Json := (List.range 25).map (fun i => Json.num (Int.ofNat i))

/-- Witness for C9 at a 25-message history: exactly the last 20 prior
messages survive, and a one-round chat run submits exactly that list. -/
theorem C9_history_capped_witness :
    (buildMessages "What changed?" hist25 none =
      [Msg.system (systemContent none)] ++
        (hist25.drop (hist25.length - MAX_HISTORY_MESSAGES)).map Msg.hist ++
        [Msg.user "What changed?"] ∧
      (hist25.drop (hist25.length - MAX_HISTORY_MESSAGES)).length =
        MAX_HISTORY_MESSAGES) ∧
    chat implW [finalResp] "What changed?" hist25 none =
      some ⟨"Hello! How can I help with your farm today?", [],
        buildMessages "What changed?" hist25 none, 1⟩ :=
  ⟨C9_history_capped.1 "What changed?" hist25 none (by decide),
   C9_history_capped.2.2 implW finalResp "What changed?" hist25 none rfl⟩

/-! ## C1: tool-failure containment -/

/-- C1: in a round whose response requests several tool calls, one of
which makes `execute_tool` raise while every other succeeds, the loop
does not abort: the turn still reaches the final answer of the next
response; one record per requested call is returned in order; the
failing call's record carries the error text and no result; every
other call's record carries a result and no error; and a tool-turn
message whose content is the serialized `{"error": <message>}` object
is appended for the failing call (its serialization fitting the
result-length budget). -/
theorem C1_tool_failure_contained (impl : ToolImpl) (r1 r2 : ModelResponse)
    (message : String) (history : List Json) (context : Option ChatContext)
    (c : ToolCallReq) (e : String)
    (hmem : c ∈ r1.tool_calls)
    (hstop : r1.finish_reason ≠ "stop")
    (hfail : execute_tool impl c.name c.arguments = Except.error e)
    (hothers : ∀ c' ∈ r1.tool_calls, c' ≠ c →
      ∃ v, execute_tool impl c'.name c'.arguments = Except.ok v)
    (hfinal : r2.tool_calls = [])
    (hlen : (dumps (Json.obj [("error", Json.str e)])).length ≤
      MAX_TOOL_RESULT_LENGTH) :
    ∃ res, chat impl [r1, r2] message history context = some res ∧
      res.message = r2.content.getD "" ∧
      res.tool_calls = r1.tool_calls.map (recordOf impl) ∧
      recordOf impl c = ⟨c.name, c.arguments, none, some e⟩ ∧
      (∀ c' ∈ r1.tool_calls, c' ≠ c →
        (recordOf impl c').error = none ∧ ((recordOf impl c').result).isSome) ∧
      Msg.tool c.id (dumps (Json.obj [("error", Json.str e)])) ∈ res.transcript := by
  have hne : r1.tool_calls ≠ [] := by
    intro h0
    rw [h0] at hmem
    exact (List.not_mem_nil c) hmem
  have hrec : recordOf impl c = ⟨c.name, c.arguments, none, some e⟩ := by
    simp [recordOf, hfail]
  have hrun : chat impl [r1, r2] message history context =
      some ⟨r2.content.getD "",
        [] ++ r1.tool_calls.map (recordOf impl),
        (buildMessages message history context ++
          [Msg.assistant r1.content r1.tool_calls] ++
          r1.tool_calls.map (toolTurnOf impl)), 2⟩ := by
    unfold chat
    rw [chatLoop_round impl r1 [r2] _ [] 0 hne hstop,
      chatLoop_terminal impl r2 [] _ _ 1 (Or.inl hfinal)]
  refine ⟨_, hrun, rfl, by simp, hrec, ?_, ?_⟩
  · intro c' hc' hne'
    obtain ⟨v, hv⟩ := hothers c' hc' hne'
    simp [recordOf, hv]
  · have htc : toolTurnOf impl c =
        Msg.tool c.id (dumps (Json.obj [("error", Json.str e)])) := by
      simp [toolTurnOf, hfail, truncate_of_fits _ _ hlen]
    have : toolTurnOf impl c ∈ r1.tool_calls.map (toolTurnOf impl) :=
      List.mem_map_of_mem _ hmem
    simp only [htc] at this
    simp [this]

/-! ## C3: the truncation bound (corrected) -/

/-- The fallback marker appended by `_truncate_result` has 36
characters. -/
lemma truncMarker_length :
    ("... [TRUNCATED - result too large]\"\x7d" : String).length = 36 := by decide

/-- The fallback branch of `_truncate_result` stays within the budget
whenever the budget is at least 100. -/
lemma fallback_length_le (s : String) (max_length : Nat)
    (h100 : 100 ≤ max_length) (hlong : max_length < s.length) :
    (pySliceTo s ((max_length : Int) - 100) ++
      "... [TRUNCATED - result too large]\"\x7d").length ≤ max_length := by
  have hnn : (0 : Int) ≤ (max_length : Int) - 100 := by omega
  have htn : ((max_length : Int) - 100).toNat = max_length - 100 := by omega
  rw [String.length_append, truncMarker_length, pySliceTo, if_pos hnn, htn]
  have hlen : (String.mk (s.data.take (max_length - 100))).length =
      min (max_length - 100) s.data.length := by
    show (s.data.take (max_length - 100)).length = _
    exact List.length_take (max_length - 100) s.data
  rw [hlen]
  have : s.data.length = s.length := rfl
  omega

/-- A six-element `data` list whose five-element truncation still
re-serializes beyond the budget of 100. -/
def cexData : Json :=
  Json.obj [("data", Json.arr (List.replicate 6 (Json.str "aaaaaaaaaaaaaaa")))]

/-- A plain oversized string result, against a budget below 100. -/
def cexPlain : Json := Json.str (String.mk (List.replicate 40 'b'))

/-- Counterexample to C3 as stated: the truncator's output can exceed
`max_length`, both on the data-slicing path (a `{"data": [...]}`
result with six 15-character items against a budget of 100) and on the
fallback path when the budget is below the 100-character slack (a
42-character encoding against a budget of 10). -/
theorem C3_truncation_bound_counterexample :
    100 < (_truncate_result cexData 100).length ∧
    10 < (_truncate_result cexPlain 10).length :=
  ⟨by decide, by decide⟩

/-- C3 amended: the bound holds for every budget of at least 100 and
every result that is not a mapping carrying a `data` sequence of more
than five elements (on the data-slicing path the re-serialized
five-element copy is returned without a length check, so the bound can
fail there; below a budget of 100 the fallback marker alone can exceed
the budget). -/
theorem C3_truncation_bound_amended (result : Json) (max_length : Nat)
    (h100 : 100 ≤ max_length)
    (hshape : ∀ fields data, result = Json.obj fields →
      fields.lookup "data" = some (Json.arr data) → data.length ≤ 5) :
    (_truncate_result result max_length).length ≤ max_length := by
  by_cases hfit : (dumps result).length ≤ max_length
  · rw [truncate_of_fits result max_length hfit]
    exact hfit
  · have hlong : max_length < (dumps result).length := Nat.lt_of_not_le hfit
    have hfb := fallback_length_le (dumps result) max_length h100 hlong
    cases result with
    | obj fields =>
      cases hl : fields.lookup "data" with
      | none => simpa [_truncate_result, hfit, hl] using hfb
      | some v =>
        cases v with
        | arr data =>
          have hle : ¬ (data.length > 5) := by
            have := hshape fields data rfl hl
            omega
          simpa [_truncate_result, hfit, hl, hle] using hfb
        | null => simpa [_truncate_result, hfit, hl] using hfb
        | bool b => simpa [_truncate_result, hfit, hl] using hfb
        | num n => simpa [_truncate_result, hfit, hl] using hfb
        | str s => simpa [_truncate_result, hfit, hl] using hfb
        | obj gs => simpa [_truncate_result, hfit, hl] using hfb
    | null => simpa [_truncate_result, hfit] using hfb
    | bool b => simpa [_truncate_result, hfit] using hfb
    | num n => simpa [_truncate_result, hfit] using hfb
    | str s => simpa [_truncate_result, hfit] using hfb
    | arr xs => simpa [_truncate_result, hfit] using hfb

/-- Witness for the amended C3: a 200-character string result against
a budget of 100 is brought within the budget. -/
theorem C3_truncation_bound_amended_witness :
    100 ≤ 100 ∧
    (_truncate_result (Json.str (String.mk (List.replicate 200 'c'))) 100).length
      ≤ 100 :=
  ⟨le_refl 100,
   C3_truncation_bound_amended (Json.str (String.mk (List.replicate 200 'c'))) 100
     (le_refl 100) (fun _ _ h _ => Json.noConfusion h)⟩

/-! ## C4: truncation identity and data slicing -/

/-- C4: a result whose serialization fits the budget is returned
unchanged, and a `{"data": <21 items>, ...}` result whose
serialization exceeds the budget comes back as the copy holding
exactly the first five data items plus the added `_truncated` note
naming 5 of 21. -/
theorem C4_truncation_slices_data :
    (∀ (result : Json) (max_length : Nat),
      (dumps result).length ≤ max_length →
      _truncate_result result max_length = dumps result) ∧
    (∀ (fields : List (String × Json)) (data : List Json) (max_length : Nat),
      fields.lookup "data" = some (Json.arr data) →
      data.length = 21 →
      max_length < (dumps (Json.obj fields)).length →
      _truncate_result (Json.obj fields) max_length =
        dumps (Json.obj (objInsert
          (objInsert fields "data" (Json.arr (data.take 5)))
          "_truncated"
          (Json.str "Showing 5 of 21 items. Use more specific filters to see more.")))) := by
  constructor
  · exact truncate_of_fits
  · intro fields data max_length hl h21 hlong
    have hfit : ¬ ((dumps (Json.obj fields)).length ≤ max_length) :=
      Nat.not_le_of_lt hlong
    have h5 : data.length > 5 := by omega
    have hnote : "Showing 5 of " ++ toString data.length ++
        " items. Use more specific filters to see more." =
        "Showing 5 of 21 items. Use more specific filters to see more." := by
      rw [h21]
      rfl
    simp [_truncate_result, hfit, hl, h5, hnote]

/-- A 21-item list result for the C4 witness. -/
def fields21 : List (String × Json) :=
  [("data", Json.arr (List.replicate 21 Json.null))]

/-- Witness for C4: the small-result identity at `7`, and the
data-slicing equation at a 21-null `data` list against a budget of 10. -/
theorem C4_truncation_slices_data_witness :
    _truncate_result (Json.num 7) 8000 = dumps (Json.num 7) ∧
    _truncate_result (Json.obj fields21) 10 =
      dumps (Json.obj (objInsert
        (objInsert fields21 "data" (Json.arr ((List.replicate 21 Json.null).take 5)))
        "_truncated"
        (Json.str "Showing 5 of 21 items. Use more specific filters to see more."))) :=
  ⟨C4_truncation_slices_data.1 (Json.num 7) 8000 (by decide),
   C4_truncation_slices_data.2 fields21 (List.replicate 21 Json.null) 10 rfl
     (by decide) (by decide)⟩

/-- The failing requested call of the C1 witness (`implW` raises on
`list_assets`). -/
def cBad : ToolCallReq :=
  ⟨"call_1", "list_assets", Json.obj [("asset_type", Json.str "animal")]⟩

/-- The succeeding requested call of the C1 witness. -/
def cOk : ToolCallReq := ⟨"call_2", "get_farm_summary", Json.obj []⟩

/-- A round requesting both calls, with tool calls pending. -/
def toolRoundResp : ModelResponse := ⟨none, [cBad, cOk], "tool_calls"⟩

/-- Witness for C1: with `list_assets` raising `boom` and
`get_farm_summary` succeeding, the two-round run still returns the
final answer, the failing record carries the error and no result, the
other record a result and no error, and the serialized error object is
a tool turn of the transcript. -/
theorem C1_tool_failure_contained_witness :
    ∃ res, chat implW [toolRoundResp, finalResp] "What is on my farm?" [] none =
        some res ∧
      res.message = "Hello! How can I help with your farm today?" ∧
      res.tool_calls = [cBad, cOk].map (recordOf implW) ∧
      recordOf implW cBad =
        ⟨"list_assets", Json.obj [("asset_type", Json.str "animal")], none,
          some "boom"⟩ ∧
      (∀ c' ∈ toolRoundResp.tool_calls, c' ≠ cBad →
        (recordOf implW c').error = none ∧ ((recordOf implW c').result).isSome) ∧
      Msg.tool "call_1" (dumps (Json.obj [("error", Json.str "boom")])) ∈
        res.transcript :=
  C1_tool_failure_contained implW toolRoundResp finalResp "What is on my farm?"
    [] none cBad "boom"
    (List.mem_cons_self cBad [cOk])
    (by decide)
    rfl
    (by
      intro c' hc' hne
      have hdis : c' = cBad ∨ c' = cOk := by
        simpa [toolRoundResp] using hc'
      rcases hdis with h | h
      · exact absurd h hne
      · refine ⟨Json.obj [], ?_⟩
        rw [h]
        rfl)
    rfl
    (by decide)

/-! ## C5: schema synthesis -/

/-- The allow-list has no duplicate names. -/
lemma TOOL_NAMES_nodup : TOOL_NAMES.Nodup := by decide

/-- The synthesized schema's name is the registered name. -/
lemma toolDef_name (name : String) (func : PyFunc) :
    (_function_to_openai_tool name func).name = name := rfl

/-- Dict assignment under a fresh key is an append. -/
lemma propInsert_fresh (d : List (String × PropSchema)) (k : String)
    (v : PropSchema) (h : k ∉ d.map Prod.fst) :
    propInsert d k v = d ++ [(k, v)] := by
  have hany : d.any (fun p => p.1 == k) = false := by
    rw [List.any_eq_false]
    intro p hp
    simp only [beq_iff_eq]
    intro he
    exact h (he ▸ List.mem_map_of_mem Prod.fst hp)
  simp [propInsert, hany]

/-- The parameter fold of `_function_to_openai_tool`, under unique
parameter names (guaranteed by `inspect.signature`): it appends one
property per parameter, in declaration order, and one `required` entry
per parameter without a default value. -/
lemma foldl_propStep (descs : List (String × String)) :
    ∀ (params : List PyParam) (accP : List (String × PropSchema))
      (accR : List String),
    (∀ p ∈ params, p.name ∉ accP.map Prod.fst) →
    (params.map PyParam.name).Nodup →
    params.foldl (propStep descs) (accP, accR) =
      (accP ++ params.map (fun p => (p.name, paramSchema descs p)),
       accR ++ (params.filter (fun p => !p.hasDefault)).map PyParam.name) := by
  intro params
  induction params with
  | nil =>
    intro accP accR _ _
    simp
  | cons p ps ih =>
    intro accP accR hfresh hnd
    have hp : p.name ∉ accP.map Prod.fst := hfresh p (List.mem_cons_self p ps)
    have hx : (∀ x ∈ ps, ¬ x.name = p.name) ∧ (ps.map PyParam.name).Nodup := by
      simpa using hnd
    have hpn : p.name ∉ ps.map PyParam.name := by
      intro hmemn
      obtain ⟨x, hx2, hxe⟩ := List.mem_map.mp hmemn
      exact hx.1 x hx2 hxe
    have hnd' : (ps.map PyParam.name).Nodup := hx.2
    have hins : propStep descs (accP, accR) p =
        (accP ++ [(p.name, paramSchema descs p)],
         if p.hasDefault then accR else accR ++ [p.name]) := by
      simp [propStep, propInsert_fresh _ _ _ hp]
    have hfresh' : ∀ q ∈ ps,
        q.name ∉ (accP ++ [(p.name, paramSchema descs p)]).map Prod.fst := by
      intro q hq
      rw [List.map_append]
      simp only [List.mem_append, List.map_cons, List.map_nil,
        List.mem_cons, List.not_mem_nil, or_false, not_or]
      refine ⟨hfresh q (List.mem_cons_of_mem p hq), ?_⟩
      intro he
      exact hpn (he ▸ List.mem_map_of_mem PyParam.name hq)
    rw [List.foldl_cons, hins]
    cases hd : p.hasDefault with
    | true =>
      rw [if_pos rfl, ih _ _ hfresh' hnd']
      simp [hd]
    | false =>
      rw [if_neg (by simp), ih _ _ hfresh' hnd']
      simp [hd]

/-- Under unique parameter names, looking a parameter up in the built
property list yields its schema. -/
lemma lookup_paramSchema (descs : List (String × String)) :
    ∀ (params : List PyParam) (p : PyParam),
    (params.map PyParam.name).Nodup → p ∈ params →
    (params.map (fun q => (q.name, paramSchema descs q))).lookup p.name =
      some (paramSchema descs p) := by
  intro params
  induction params with
  | nil =>
    intro p _ hp
    cases hp
  | cons q qs ih =>
    intro p hnd hp
    rcases List.mem_cons.mp hp with h | h
    · subst h
      simp [List.lookup]
    · have hx : (∀ x ∈ qs, ¬ x.name = q.name) ∧ (qs.map PyParam.name).Nodup := by
        simpa using hnd
      have hqn : (p.name == q.name) = false := by
        rw [beq_eq_false_iff_ne]
        exact hx.1 p h
      simp [List.lookup, hqn, ih p hx.2 h]

/-- C5: every registered tool name yields exactly one schema, its name
matching; the schema's properties list one entry per declared
parameter in order; a parameter is required exactly when it has no
default value; each parameter's entry is its synthesized schema; and
the synthesized schema gives array-typed parameters an `items`
descriptor, while an absent annotation or one outside the recognized
set falls back to type `string`. -/
theorem C5_tool_schema_synthesis (env : String → PyFunc) (name : String)
    (hmem : name ∈ TOOL_NAMES)
    (hnd : ((env name).params.map PyParam.name).Nodup) :
    ((get_tool_definitions env).filter (fun d => d.name == name)).length = 1 ∧
    (_function_to_openai_tool name (env name)).name = name ∧
    (_function_to_openai_tool name (env name)).properties.map Prod.fst =
      (env name).params.map PyParam.name ∧
    (∀ p ∈ (env name).params,
      (p.name ∈ (_function_to_openai_tool name (env name)).required ↔
        p.hasDefault = false)) ∧
    (∀ p ∈ (env name).params,
      (_function_to_openai_tool name (env name)).properties.lookup p.name =
        some (paramSchema (parseParamDescriptions ((env name).doc.getD "")) p)) ∧
    (∀ (descs : List (String × String)) (p : PyParam),
      ( p.annotation = some PyAnnot.pyList →
        (paramSchema descs p).type = "array" ∧
        (paramSchema descs p).items =
          some (Json.obj [("type", Json.str "object")])) ∧
      (( p.annotation = none ∨ p.annotation = some PyAnnot.pyOther) →
        (paramSchema descs p).type = "string" ∧
        (paramSchema descs p).items = none)) := by
  have hfold := foldl_propStep (parseParamDescriptions ((env name).doc.getD ""))
    (env name).params [] [] (by simp) hnd
  have hprops : (_function_to_openai_tool name (env name)).properties =
      (env name).params.map (fun p =>
        (p.name, paramSchema (parseParamDescriptions ((env name).doc.getD "")) p)) := by
    simp [_function_to_openai_tool, hfold]
  have hreq : (_function_to_openai_tool name (env name)).required =
      ((env name).params.filter (fun p => !p.hasDefault)).map PyParam.name := by
    simp [_function_to_openai_tool, hfold]
  refine ⟨?_, rfl, ?_, ?_, ?_, ?_⟩
  · rw [show get_tool_definitions env =
      TOOL_NAMES.map (fun n => _function_to_openai_tool n (env n)) from rfl,
      List.filter_map, List.length_map]
    have hcomp : ((fun d : ToolDef => d.name == name) ∘
        (fun n => _function_to_openai_tool n (env n))) = (fun n => n == name) := by
      funext n
      simp [Function.comp, toolDef_name]
    rw [hcomp, ← List.countP_eq_length_filter, ← List.count_eq_countP,
      List.count_eq_one_of_mem TOOL_NAMES_nodup hmem]
  · rw [hprops, List.map_map]
    congr 1
  · intro p hp
    rw [hreq]
    constructor
    · intro hin
      obtain ⟨q, hq, hqe⟩ := List.mem_map.mp hin
      have hqmem : q ∈ (env name).params := (List.mem_filter.mp hq).1
      have hqdef : !q.hasDefault := (List.mem_filter.mp hq).2
      have : q = p := List.inj_on_of_nodup_map hnd hqmem hp hqe
      subst this
      simpa using hqdef
    · intro hdef
      exact List.mem_map_of_mem PyParam.name
        (List.mem_filter.mpr ⟨hp, by simp [hdef]⟩)
  · intro p hp
    rw [hprops]
    exact lookup_paramSchema _ (env name).params p hnd hp
  · intro descs p
    constructor
    · intro h
      simp [paramSchema, h, _get_type_for_annotation]
    · intro h
      rcases h with h | h <;> simp [paramSchema, h, _get_type_for_annotation]

/-- A sample callable signature for the C5 witness: one required
string parameter, one defaulted list parameter, one defaulted
unannotated parameter, with a docstring. -/
def pfW : PyFunc :=
  ⟨[⟨"asset_type", some PyAnnot.pyStr, false⟩,
    ⟨"flags", some PyAnnot.pyList, true⟩,
    ⟨"note", none, true⟩],
   some "List assets.\n\n    Args:\n        asset_type: Type of assets\n    "⟩

/-- A sample callable environment for the C5 witness. -/
def envW : String → PyFunc := fun _ => pfW

/-- Witness for C5 at the registered name `list_assets` and the sample
signature. -/
theorem C5_tool_schema_synthesis_witness :
    ((get_tool_definitions envW).filter (fun d => d.name == "list_assets")).length = 1 ∧
    (_function_to_openai_tool "list_assets" (envW "list_assets")).name = "list_assets" ∧
    (_function_to_openai_tool "list_assets" (envW "list_assets")).properties.map Prod.fst =
      (envW "list_assets").params.map PyParam.name ∧
    (∀ p ∈ (envW "list_assets").params,
      (p.name ∈ (_function_to_openai_tool "list_assets" (envW "list_assets")).required ↔
        p.hasDefault = false)) ∧
    (∀ p ∈ (envW "list_assets").params,
      (_function_to_openai_tool "list_assets" (envW "list_assets")).properties.lookup p.name =
        some (paramSchema (parseParamDescriptions ((envW "list_assets").doc.getD "")) p)) ∧
    (∀ (descs : List (String × String)) (p : PyParam),
      ( p.annotation = some PyAnnot.pyList →
        (paramSchema descs p).type = "array" ∧
        (paramSchema descs p).items =
          some (Json.obj [("type", Json.str "object")])) ∧
      (( p.annotation = none ∨ p.annotation = some PyAnnot.pyOther) →
        (paramSchema descs p).type = "string" ∧
        (paramSchema descs p).items = none)) :=
  C5_tool_schema_synthesis envW "list_assets" (by decide) (by decide)

/-! ## C8: the Args-section scan (corrected) -/

/-- The docstring of the C8 counterexample: inside the `Args:` section
a blank line separates the entry for `a` from the entry for `b`. -/
def docCex : String := "Summary line.\n\nArgs:\n    a: first\n\n    b: second"

/-- Counterexample to C8 as stated: a blank line does not end the
`Args:` section — the `b: second` line standing after the blank line
still contributes a parameter description, where the claim says lines
after the section's end contribute none. -/
theorem C8_args_scan_counterexample :
    (parseParamDescriptions docCex).lookup "b" = some "second" ∧
    ¬ ((parseParamDescriptions docCex).lookup "b" = none) :=
  ⟨by decide, by decide⟩

/-- C8 amended: scanning the `Args:` section, a blank line is skipped
without ending the section; the section ends at a non-blank line
lacking a colon; every non-blank line with a colon contributes a
`name: description` entry; and once the section has ended, lines not
starting a new `Args:` section contribute no parameter descriptions. -/
theorem C8_args_scan_amended :
    (∀ (st : Bool × List (String × String)) (line : String),
      pyStrip line = "" → pdStep st line = st) ∧
    (∀ (d : List (String × String)) (line : String),
      pyStartsWith (pyStrip line) "Args:" = false →
      ((pyStrip line).data.contains ':') = false →
      pyStrip line ≠ "" →
      pdStep (true, d) line = (false, d)) ∧
    (∀ (d : List (String × String)) (line : String),
      pyStartsWith (pyStrip line) "Args:" = false →
      pdStep (false, d) line = (false, d)) ∧
    (∀ (d : List (String × String)) (line : String),
      pyStartsWith (pyStrip line) "Args:" = false →
      ((pyStrip line).data.contains ':') = true →
      pdStep (true, d) line =
        (true, dictInsert d (pyStrip (pySplitColon (pyStrip line)).1)
          (pyStrip (pySplitColon (pyStrip line)).2))) ∧
    (∀ (lines : List String) (d : List (String × String)),
      (∀ l ∈ lines, pyStartsWith (pyStrip l) "Args:" = false) →
      lines.foldl pdStep (false, d) = (false, d)) := by
  have hstep_off : ∀ (d : List (String × String)) (line : String),
      pyStartsWith (pyStrip line) "Args:" = false →
      pdStep (false, d) line = (false, d) := by
    intro d line hargs
    simp [pdStep, hargs]
  refine ⟨?_, ?_, hstep_off, ?_, ?_⟩
  · intro st line hblank
    have hargs : pyStartsWith "" "Args:" = false := by decide
    cases st with
    | mk b d => cases b <;> simp [pdStep, hblank, hargs]
  · intro d line hargs hcol hne
    have hbne : (pyStrip line != "") = true := by
      simpa using hne
    have hnotin : ':' ∉ (pyStrip line).data := by
      simpa using hcol
    simp [pdStep, hargs, hbne, hnotin, hne]
  · intro d line hargs hcol
    have hne : pyStrip line ≠ "" := by
      intro h0
      rw [h0] at hcol
      exact absurd hcol (by decide)
    have hbne : (pyStrip line != "") = true := by
      simpa using hne
    have hin : ':' ∈ (pyStrip line).data := by
      simpa using hcol
    simp [pdStep, hargs, hbne, hin]
  · intro lines
    induction lines with
    | nil => intro d _; rfl
    | cons l ls ih =>
      intro d hall
      rw [List.foldl_cons, hstep_off d l (hall l (List.mem_cons_self l ls))]
      exact ih d (fun x hx => hall x (List.mem_cons_of_mem l hx))

/-- Witness for the amended C8, one concrete line per clause: a blank
line inside the section is skipped; a colon-free non-blank line ends
the section; a colon line after the end contributes nothing; a colon
line inside the section contributes its entry; a tail of
non-`Args:` lines after the end leaves the state unchanged. -/
theorem C8_args_scan_amended_witness :
    pdStep (true, [("a", "first")]) "   " = (true, [("a", "first")]) ∧
    pdStep (true, [("a", "first")]) "Returns" = (false, [("a", "first")]) ∧
    pdStep (false, [("a", "first")]) "    b: second" = (false, [("a", "first")]) ∧
    pdStep (true, []) "    b: second" = (true, [("b", "second")]) ∧
    ["Returns", "b: second"].foldl pdStep (false, []) = (false, []) :=
  ⟨C8_args_scan_amended.1 (true, [("a", "first")]) "   " (by decide),
   C8_args_scan_amended.2.1 [("a", "first")] "Returns" (by decide) (by decide)
     (by decide),
   C8_args_scan_amended.2.2.1 [("a", "first")] "    b: second" (by decide),
   C8_args_scan_amended.2.2.2.1 [] "    b: second" (by decide) (by decide),
   C8_args_scan_amended.2.2.2.2 ["Returns", "b: second"] [] (by decide)⟩
